import Mathlib

/-!
# Verification of `gpu_temp` (src/main.py)

A shallow embedding of the sensor-acquisition core of `src/main.py`:
the vendor (pynvml) adapter path, the generic (psutil) fallback path,
the orchestrator `get_gpu_data_structured`, and the one-shot CLI modes
of `main` (`--json` / `--short`).

Modelling conventions:
* Python floats are modelled as `ℚ` (every constant appearing in the
  program and the claims — 85.0, 95.0, 72.5, temperatures — is exact).
* Python exceptions are values of `PyExn`; a fallible foreign call is an
  `Except PyExn α`.  The behaviour of the pynvml library in one poll is a
  `VendorBehavior` record giving the outcome of each foreign call; the
  psutil sensor-table read is an `Except PyExn SensorTable` argument.
* Python string operations (`in`, `.lower()`, `.strip()`, `.replace`,
  `.startswith`) are embedded as executable functions on `List Char`.
* `timestamp` (wall-clock) and the exact float rendering `{:.1f}` are
  presentation-only and outside the embedded core; the `--short` digest
  is modelled down to the (shortLabel, current) pairs it prints.
-/

set_option autoImplicit false

namespace GpuTemp

/-- A Python exception: either a structured `NVMLError` carrying its
`error.value` code, or any other exception.  In both cases `msg` is the
string interpolation `f"{e}"` of the exception. -/
inductive PyExn where
  | nvml (msg : String) (val : Int)
  | other (msg : String)
  deriving DecidableEq, Repr

/-- The message of an exception, as interpolated by the source. -/
def PyExn.message : PyExn → String
  | .nvml m _ => m
  | .other m => m

/-- The pynvml constant `NVML_ERROR_NOT_FOUND`. -/
def NVML_ERROR_NOT_FOUND : Int := 6

/-! ## Embedded Python string primitives -/

/-- Python `pat in s` on lists of characters: `pat` occurs contiguously
inside `l`. -/
def containsSub (pat : List Char) : List Char → Bool
  | [] => pat.isEmpty
  | c :: cs => pat.isPrefixOf (c :: cs) || containsSub pat cs

/-- Python `pat in s` for strings. -/
def pyIn (pat s : String) : Bool := containsSub pat.toList s.toList

/-- Python `s.lower()` (ASCII case folding, as used by the program). -/
def pyLower (s : String) : String := ⟨s.toList.map Char.toLower⟩

/-- Python `s.startswith(pat)`. -/
def pyStartsWith (s pat : String) : Bool := pat.toList.isPrefixOf s.toList

/-- Python `s.strip()`: drop leading and trailing whitespace. -/
def pyStrip (s : String) : String :=
  ⟨((s.toList.dropWhile Char.isWhitespace).reverse.dropWhile Char.isWhitespace).reverse⟩

/-- Python `s.replace(pat, rep)` on lists of characters: every
(left-to-right, non-overlapping) occurrence of `pat` is replaced by
`rep`.  The program only calls this with the non-empty pattern
`"GPU "`, so the empty-pattern edge case is treated as no-match. -/
def pyReplaceAux (pat rep : List Char) : Nat → List Char → List Char
  | _, [] => []
  | 0, l => l
  | fuel + 1, c :: cs =>
    if !pat.isEmpty && pat.isPrefixOf (c :: cs) then
      rep ++ pyReplaceAux pat rep fuel ((c :: cs).drop pat.length)
    else
      c :: pyReplaceAux pat rep fuel cs

/-- Runs `pyReplaceAux` with enough fuel (each step consumes at least one
character of the remaining input, so `l.length` steps suffice). -/
def pyReplaceL (pat rep l : List Char) : List Char := pyReplaceAux pat rep l.length l

/-- Python `s.replace(pat, rep)` for strings. -/
def pyReplace (s pat rep : String) : String := ⟨pyReplaceL pat.toList rep.toList s.toList⟩

/-! ## Data model -/

/-- One entry of the normalized `gpu_temps` list (the reading
dictionaries, lines 96–102 and 135–141 of `src/main.py`). -/
structure Reading where
  label : String
  current : ℚ
  high : ℚ
  critical : ℚ
  detection_source : String
  deriving DecidableEq, Repr

/-- The dictionary returned by `get_gpu_data_structured` (minus the
presentation-only `timestamp`).  `error` / `available_sensor_keys`
model the optional keys of the Python dict. -/
structure GpuData where
  gpu_temps : List Reading
  gpu_detection_method : String
  error : Option String
  available_sensor_keys : Option (List String)
  deriving DecidableEq, Repr

/-- One `psutil` sensor entry `(label, current, high, critical)`.
`psutil` named tuples always carry a `label : str` (possibly empty);
`current`/`high`/`critical` may be `None`. -/
structure SensorEntry where
  label : String
  current : Option ℚ
  high : Option ℚ
  critical : Option ℚ
  deriving DecidableEq, Repr

/-- The psutil sensor table: an insertion-ordered mapping from group key
to its list of entries. -/
def SensorTable := List (String × List SensorEntry)

/-! ## Generic (psutil) adapter, lines 115–143 -/

/-- The known GPU group keys `psutil_gpu_sensor_keys` (line 117). -/
def psutil_gpu_sensor_keys : List String := ["amdgpu", "nouveau", "gpu", "radeon"]

/-- The GPU-classification heuristic for one sensor entry
(lines 124–131): requires a non-`None` `current`, then matches the
group key against the known key list, `gpu`/`video` substrings, or the
`temp`-key + `gpu`-label combination. -/
def is_gpu_sensor (key : String) (s : SensorEntry) : Bool :=
  match s.current with
  | none => false
  | some _ =>
    if key ∈ psutil_gpu_sensor_keys then true
    else if pyIn "gpu" (pyLower key) || pyIn "video" (pyLower key) then true
    else if pyIn "temp" (pyLower key) && pyIn "gpu" (pyLower s.label) then true
    else false

/-- The reading built from a qualifying entry (lines 134–141), where
`counter` is the running `psutil_gpu_counter`. -/
def mkGenericReading (key : String) (counter : Nat) (s : SensorEntry) : Reading :=
  { label := if s.label ≠ "" then pyStrip s.label else "GPU " ++ toString counter
    current := s.current.getD 0
    high := s.high.getD 85
    critical := s.critical.getD 95
    detection_source := "psutil (" ++ key ++ ")" }

/-- Inner loop over the entry list of one group, threading the counter. -/
def collectEntries (key : String) : Nat → List SensorEntry → List Reading × Nat
  | counter, [] => ([], counter)
  | counter, s :: rest =>
    if is_gpu_sensor key s then
      let r := mkGenericReading key counter s
      let (rs, c) := collectEntries key (counter + 1) rest
      (r :: rs, c)
    else collectEntries key counter rest

/-- Outer loop over the sensor table (lines 122–143). -/
def collectTable : Nat → SensorTable → List Reading
  | _, [] => []
  | counter, (k, ss) :: rest =>
    let (rs, c) := collectEntries k counter ss
    rs ++ collectTable c rest

/-- All readings the psutil fallback appends, counter starting at 1
(line 119). -/
def genericCollect (raw : SensorTable) : List Reading := collectTable 1 raw

/-! ## Vendor (pynvml) adapter path, lines 76–111 -/

/-- The outcome of each pynvml foreign call during one poll:
`nvmlInit`, `nvmlDeviceGetCount`, the per-device triple
`nvmlDeviceGetHandleByIndex` / `nvmlDeviceGetName` /
`nvmlDeviceGetTemperature` (collapsed to one fallible call returning
the decoded name and the temperature), and `nvmlShutdown`. -/
structure VendorBehavior where
  init : Except PyExn Unit
  count : Except PyExn Nat
  device : Nat → Except PyExn (String × ℚ)
  shutdown : Except PyExn Unit

/-- The reading appended for one vendor device (lines 93–102):
fixed thresholds 85.0 / 95.0, source `"pynvml"`. -/
def mkVendorReading (name : String) (t : ℚ) : Reading :=
  { label := name, current := t, high := 85, critical := 95
    detection_source := "pynvml" }

/-- The error message and detection method set by the two `except`
clauses (lines 104–111): `NVMLError` gives
`pynvml_failed_fallback_psutil` (with the driver note when
`error.value == NVML_ERROR_NOT_FOUND`); any other exception gives
`pynvml_exception_fallback_psutil`. -/
def vendorExnFields (e : PyExn) : String × String :=
  match e with
  | .nvml msg val =>
    ("pynvml error: " ++ msg ++ ". Falling back to psutil." ++
      (if val = NVML_ERROR_NOT_FOUND then
        " (NVIDIA driver not loaded or no NVIDIA GPUs found)" else ""),
     "pynvml_failed_fallback_psutil")
  | .other msg =>
    ("Unexpected pynvml issue: " ++ msg ++ ". Falling back to psutil.",
     "pynvml_exception_fallback_psutil")

/-- The state of the data dictionary when the vendor block finishes
(normally or through an `except` clause), plus whether the
`nvmlShutdown()` call on line 103 was reached. -/
structure VendorResult where
  readings : List Reading
  method : String
  error : Option String
  shutdownCalled : Bool
  deriving DecidableEq, Repr

/-- The device loop (lines 82–102) starting at index `i` with `k`
devices left: readings appended so far, and the exception that ended
the loop early, if any. -/
def readDevicesFrom (vb : VendorBehavior) : Nat → Nat → List Reading × Option PyExn
  | _, 0 => ([], none)
  | i, k + 1 =>
    match vb.device i with
    | .error e => ([], some e)
    | .ok (name, t) =>
      let (rest, e?) := readDevicesFrom vb (i + 1) k
      (mkVendorReading name t :: rest, e?)

/-- The dict state produced by an `except` clause of the vendor block:
readings accumulated so far are retained, the error message and the
fallback method come from `vendorExnFields`, and `sd` records whether
the `nvmlShutdown()` call had been reached before the exception. -/
def vendorFail (rs : List Reading) (e : PyExn) (sd : Bool) : VendorResult :=
  ⟨rs, (vendorExnFields e).2, some (vendorExnFields e).1, sd⟩

/-- The whole `try`/`except` vendor block (lines 77–111), starting from
the initial dict state `gpu_temps = []`, `gpu_detection_method =
"None"`.  Readings appended before an exception are retained by the
`except` clauses; `nvmlShutdown` is reached only when every earlier
call succeeded. -/
def runVendor (vb : VendorBehavior) : VendorResult :=
  match vb.init with
  | .error e => vendorFail [] e false
  | .ok _ =>
    match vb.count with
    | .error e => vendorFail [] e false
    | .ok n =>
      let rs := (readDevicesFrom vb 0 n).1
      match (readDevicesFrom vb 0 n).2 with
      | some e => vendorFail rs e false
      | none =>
        match vb.shutdown with
        | .error e => vendorFail rs e true
        | .ok _ => ⟨rs, if n > 0 then "pynvml" else "None", none, true⟩

/-! ## Orchestrator: `get_gpu_data_structured`, lines 63–161 -/

/-- The two vendor-fallback method strings tested on line 114. -/
def fallbackMethods : List String :=
  ["pynvml_failed_fallback_psutil", "pynvml_exception_fallback_psutil"]

/-- The contribution of the vendor block: `runVendor` when
`PYNVML_AVAILABLE`, otherwise the untouched initial dict state. -/
def vendorPart (avail : Bool) (vb : VendorBehavior) : VendorResult :=
  if avail then runVendor vb else ⟨[], "None", none, false⟩

/-- Best-effort sensor keys of the top-level `except` clause
(lines 156–159): the keys of a second `psutil.sensors_temperatures()`
read, or `[]` if that read throws too. -/
def bestEffortKeys (tbl2 : Except PyExn SensorTable) : List String :=
  match tbl2 with
  | .ok raw => raw.map Prod.fst
  | .error _ => []

/-- The `error`-key update of the not-found branch (lines 149–150): a
fresh or fallback-tagged message gets the no-data note appended; any
other pre-existing message is kept unchanged. -/
def errUpdate (err : Option String) : Option String :=
  if err = none || pyIn "Falling back to psutil" (err.getD "") then
    some ((err.getD "") ++ " No GPU temperature data found via psutil either.")
  else err

/-- The psutil fallback section (lines 114–151) applied to the dict
state `d0` left by the vendor section: the sensor-table read `tbl`
either throws (then the top-level `except` of lines 153–159 fires, with
`tbl2` the best-effort re-read) or yields a table whose qualifying
entries are appended, followed by the detection-method update of
lines 145–151. -/
def fallbackStep (d0 : GpuData) (tbl tbl2 : Except PyExn SensorTable) : GpuData :=
  match tbl with
  | .error e =>
    { gpu_temps := d0.gpu_temps
      gpu_detection_method := "error"
      error := some ("General error during GPU data collection: " ++ e.message)
      available_sensor_keys := some (bestEffortKeys tbl2) }
  | .ok raw =>
    let newReadings := genericCollect raw
    let temps := d0.gpu_temps ++ newReadings
    let found := !newReadings.isEmpty
    if found && d0.gpu_detection_method ≠ "pynvml" then
      { d0 with gpu_temps := temps, gpu_detection_method := "psutil" }
    else if !found && d0.gpu_detection_method ≠ "pynvml" then
      { gpu_temps := temps
        gpu_detection_method := "None"
        error := errUpdate d0.error
        available_sensor_keys := some (raw.map Prod.fst) }
    else { d0 with gpu_temps := temps }

/-- One poll of `get_gpu_data_structured()`.  `avail` is
`PYNVML_AVAILABLE`, `vb` the pynvml behaviour, `tbl` the outcome of the
`psutil.sensors_temperatures()` read on line 115, and `tbl2` the
outcome of the best-effort re-read on line 157.  Total by construction:
every exception is consumed by an `except` clause of the source. -/
def get_gpu_data_structured (avail : Bool) (vb : VendorBehavior)
    (tbl tbl2 : Except PyExn SensorTable) : GpuData :=
  let v := vendorPart avail vb
  let d0 : GpuData := ⟨v.readings, v.method, v.error, none⟩
  if d0.gpu_temps.isEmpty || d0.gpu_detection_method ∈ fallbackMethods then
    fallbackStep d0 tbl tbl2
  else d0

/-! ## One-shot CLI modes, lines 227–262 of `main` -/

/-- The short display label for the reading at index `i` (lines
252–256): base label from the `"GPU "`-replace or `"G{i+1}"`, then the
`nvidia` / `amd` / `radeon` overrides. -/
def shortLabel (label : String) (i : Nat) : String :=
  let base :=
    if pyStartsWith label "GPU " then pyReplace label "GPU " "G"
    else "G" ++ toString (i + 1)
  if pyIn "nvidia" (pyLower label) then "NV" ++ toString (i + 1)
  else if pyIn "amd" (pyLower label) || pyIn "radeon" (pyLower label) then
    "AMD" ++ toString (i + 1)
  else base

/-- The one-shot mode selected on the command line (after the
mutual-exclusivity check). -/
inductive Mode where
  | json
  | short
  deriving DecidableEq, Repr

/-- What a one-shot invocation emits.  `errorExit` is the stderr
diagnostic path; `jsonDoc` is the full snapshot printed as JSON on
stdout; `shortNA` is the `"GPU: N/A"` line; `shortDigest` carries the
`(shortLabel, current)` pair of each reading in order, which the
program joins as `"{label}: {current:.1f}°C"` with `" | "`. -/
inductive CliOut where
  | errorExit (diag : String) (keys : Option (List String))
  | jsonDoc (d : GpuData)
  | shortNA
  | shortDigest (parts : List (String × ℚ))
  deriving DecidableEq, Repr

/-- The `(shortLabel, current)` pairs of the `--short` loop
(lines 251–258). -/
def shortParts (temps : List Reading) : List (String × ℚ) :=
  temps.enum.map fun p => (shortLabel p.2.label p.1, p.2.current)

/-- The one-shot branch of `main` (lines 227–262): output and process
exit code for a collected snapshot `d`.  The error exit (lines 230–234)
fires exactly when the `error` key is present and `gpu_temps` is empty;
otherwise `--json` prints the snapshot and `--short` its one line, both
exiting 0.  (`json.dumps` cannot fail on this data shape — every value
is a string, float or list — so the line-241 handler is dead and not
modelled.) -/
def oneShot (mode : Mode) (d : GpuData) : CliOut × Nat :=
  if d.error.isSome && d.gpu_temps.isEmpty then
    (.errorExit (d.error.getD "") d.available_sensor_keys, 1)
  else
    match mode with
    | .json => (.jsonDoc d, 0)
    | .short =>
      if d.gpu_temps.isEmpty then (.shortNA, 0)
      else (.shortDigest (shortParts d.gpu_temps), 0)


/-! ## Concrete pynvml stub behaviours used in witnesses and
counterexamples -/

/-- The vendor path succeeded outright: every pynvml call returned. -/
def vendorFullSuccess (vb : VendorBehavior) (n : Nat) : Prop :=
  vb.init = .ok () ∧ vb.count = .ok n ∧ (∀ j, j < n → ∃ p, vb.device j = .ok p) ∧
  vb.shutdown = .ok ()

/-- For the counterexample to C2: `nvmlInit` succeeds, then
`nvmlDeviceGetCount` raises `NVMLError`, so the `except` clause runs
and `nvmlShutdown` is never reached. -/
def countFailsBehavior : VendorBehavior :=
  { init := .ok ()
    count := .error (.nvml "Driver Not Loaded" 6)
    device := fun _ => .ok ("", 0)
    shutdown := .ok () }

/-- A fully well-behaved vendor stub with zero devices, used to
instantiate hypothesis-bearing theorems at a concrete input. -/
def okBehavior : VendorBehavior :=
  { init := .ok (), count := .ok 0, device := fun _ => .ok ("", 0), shutdown := .ok () }

/-- For the counterexample to C4: one vendor device is read successfully,
then `nvmlShutdown` raises `NVMLError`, so the detection method flips
to the fallback marker while the vendor reading stays in the dict. -/
def retainedReadingBehavior : VendorBehavior :=
  { init := .ok ()
    count := .ok 1
    device := fun _ => .ok ("NVIDIA T4", 50)
    shutdown := .error (.nvml "shutdown failed" 0) }

/-- A vendor stub that fully succeeds with exactly one device. -/
def oneDeviceBehavior : VendorBehavior :=
  { init := .ok (), count := .ok 1
    device := fun _ => .ok ("NVIDIA T4", 50), shutdown := .ok () }

end GpuTemp

/-! ## Theorems -/

namespace GpuTemp

theorem containsSub_iff (pat : List Char) : ∀ l : List Char, containsSub pat l = true ↔ pat <:+: l
  | [] => by
    simp [containsSub, List.isEmpty_iff]
  | c :: cs => by
    rw [containsSub, Bool.or_eq_true, List.isPrefixOf_iff_prefix, containsSub_iff pat cs,
      List.infix_cons_iff]

theorem readDevicesFrom_none (vb : VendorBehavior) :
    ∀ (k i : Nat), (∀ j, j < k → ∃ p, vb.device (i + j) = .ok p) →
      (readDevicesFrom vb i k).2 = none
  | 0, _, _ => rfl
  | k + 1, i, h => by
    obtain ⟨p, hp⟩ := h 0 (Nat.succ_pos k)
    rw [Nat.add_zero] at hp
    obtain ⟨name, t⟩ := p
    have ih := readDevicesFrom_none vb k (i + 1) fun j hj => by
      have := h (j + 1) (by omega)
      rwa [show i + (j + 1) = i + 1 + j by omega] at this
    cases hr : readDevicesFrom vb (i + 1) k with
    | mk rs e => rw [hr] at ih; simpa [readDevicesFrom, hp, hr] using ih

theorem readDevicesFrom_length (vb : VendorBehavior) :
    ∀ (k i : Nat), (readDevicesFrom vb i k).2 = none →
      (readDevicesFrom vb i k).1.length = k
  | 0, _, _ => rfl
  | k + 1, i, h => by
    cases hd : vb.device i with
    | error e => simp [readDevicesFrom, hd] at h
    | ok p =>
      obtain ⟨name, t⟩ := p
      have ih := readDevicesFrom_length vb k (i + 1)
      cases hr : readDevicesFrom vb (i + 1) k with
      | mk rs e? =>
        simp [readDevicesFrom, hd, hr] at h ⊢
        rw [hr] at ih
        exact ih h

theorem pyStrip_of_all_ws (s : String) (h : ∀ ch ∈ s.toList, ch.isWhitespace) :
    pyStrip s = "" := by
  have h1 : s.data.dropWhile Char.isWhitespace = [] :=
    List.dropWhile_eq_nil_iff.mpr (by simpa [String.toList] using h)
  simp [pyStrip, String.toList, h1]

theorem vendorExnFields_mem (e : PyExn) : (vendorExnFields e).2 ∈ fallbackMethods := by
  cases e <;> simp [vendorExnFields, fallbackMethods]

theorem vendorFail_method (rs : List Reading) (e : PyExn) (sd : Bool) :
    (vendorFail rs e sd).method ∈ fallbackMethods := vendorExnFields_mem e

theorem runVendor_success (vb : VendorBehavior) (n : Nat) (h : vendorFullSuccess vb n) :
    runVendor vb =
      ⟨(readDevicesFrom vb 0 n).1, if n > 0 then "pynvml" else "None", none, true⟩ := by
  obtain ⟨h1, h2, h3, h4⟩ := h
  have h0 : (readDevicesFrom vb 0 n).2 = none :=
    readDevicesFrom_none vb n 0 (by simpa using h3)
  simp [runVendor, h1, h2, h0, h4]

theorem vendorPart_cases (avail : Bool) (vb : VendorBehavior) :
    ((vendorPart avail vb).method = "pynvml" ∧ (vendorPart avail vb).readings ≠ []) ∨
    ((vendorPart avail vb).method = "None" ∧ (vendorPart avail vb).readings = []) ∨
    (vendorPart avail vb).method ∈ fallbackMethods := by
  cases avail with
  | false => right; left; simp [vendorPart]
  | true =>
    have hv : vendorPart true vb = runVendor vb := rfl
    rw [hv]
    cases hi : vb.init with
    | error e => right; right; simpa [runVendor, hi] using vendorFail_method [] e false
    | ok u =>
      cases hc : vb.count with
      | error e => right; right; simpa [runVendor, hi, hc] using vendorFail_method [] e false
      | ok n =>
        cases h2 : (readDevicesFrom vb 0 n).2 with
        | some e =>
          right; right
          simpa [runVendor, hi, hc, h2] using
            vendorFail_method (readDevicesFrom vb 0 n).1 e false
        | none =>
          have hlen : (readDevicesFrom vb 0 n).1.length = n :=
            readDevicesFrom_length vb n 0 h2
          cases hs : vb.shutdown with
          | error e =>
            right; right
            simpa [runVendor, hi, hc, h2, hs] using
              vendorFail_method (readDevicesFrom vb 0 n).1 e true
          | ok u2 =>
            cases n with
            | zero =>
              right; left
              simp [runVendor, hi, hc, h2, hs]
              simpa using List.length_eq_zero.mp hlen
            | succ m =>
              left
              simp [runVendor, hi, hc, h2, hs]
              intro hh
              rw [hh] at hlen
              simp at hlen

end GpuTemp

namespace GpuTemp

/-- C2 counterexample: a vendor run in which library initialization
succeeded but the handle is never released — `nvmlDeviceGetCount`
throws and the adapter path returns without calling `nvmlShutdown`,
contradicting the claimed guaranteed cleanup on failure paths. -/
theorem shutdown_skipped_on_failure :
    countFailsBehavior.init = Except.ok () ∧
    (runVendor countFailsBehavior).method = "pynvml_failed_fallback_psutil" ∧
    (runVendor countFailsBehavior).shutdownCalled = false := by
  refine ⟨rfl, ?_, rfl⟩
  decide

/-- C2 (amended): `nvmlShutdown` is reached if and only if every
pynvml call before it — `nvmlInit`, `nvmlDeviceGetCount` and all
per-device reads — succeeded; on every failure path that precedes it,
the handle is not released. -/
theorem shutdown_iff_no_earlier_failure (vb : VendorBehavior) :
    (runVendor vb).shutdownCalled = true ↔
      (vb.init = Except.ok () ∧
        ∃ n, vb.count = Except.ok n ∧ (readDevicesFrom vb 0 n).2 = none) := by
  constructor
  · intro h
    cases hi : vb.init with
    | error e => rw [runVendor, hi] at h; simp [vendorFail] at h
    | ok u =>
      cases u
      refine ⟨rfl, ?_⟩
      cases hc : vb.count with
      | error e => rw [runVendor, hi, hc] at h; simp [vendorFail] at h
      | ok n =>
        refine ⟨n, rfl, ?_⟩
        cases h2 : (readDevicesFrom vb 0 n).2 with
        | some e => rw [runVendor, hi, hc] at h; simp [h2, vendorFail] at h
        | none => rfl
  · rintro ⟨hi, n, hc, h2⟩
    cases hs : vb.shutdown with
    | error e => simp [runVendor, hi, hc, h2, hs, vendorFail]
    | ok u => simp [runVendor, hi, hc, h2, hs]

/-- C1: when the vendor adapter fully succeeds with at least one
device, the method of the snapshot is `"pynvml"`, its readings are exactly
the vendor readings, and the generic adapter contributes nothing — the
result does not depend on the sensor table at all. -/
theorem vendor_success_excludes_generic (vb : VendorBehavior) (n : Nat)
    (h : vendorFullSuccess vb n) (hn : 0 < n)
    (tbl tbl2 tbl' tbl2' : Except PyExn SensorTable) :
    (get_gpu_data_structured true vb tbl tbl2).gpu_detection_method = "pynvml" ∧
    (get_gpu_data_structured true vb tbl tbl2).gpu_temps = (readDevicesFrom vb 0 n).1 ∧
    (get_gpu_data_structured true vb tbl tbl2).gpu_temps ≠ [] ∧
    get_gpu_data_structured true vb tbl tbl2 = get_gpu_data_structured true vb tbl' tbl2' := by
  have hrv := runVendor_success vb n h
  have hlen : (readDevicesFrom vb 0 n).1.length = n :=
    readDevicesFrom_length vb n 0 (readDevicesFrom_none vb n 0 (by simpa using h.2.2.1))
  have hne : (readDevicesFrom vb 0 n).1 ≠ [] := by
    intro hh
    rw [hh] at hlen
    simp at hlen
    omega
  have key : ∀ t t2, get_gpu_data_structured true vb t t2 =
      ⟨(readDevicesFrom vb 0 n).1, "pynvml", none, none⟩ := by
    intro t t2
    have hnotin : "pynvml" ∉ fallbackMethods := by decide
    simp [get_gpu_data_structured, vendorPart, hrv, hn, hne, hnotin]
  refine ⟨?_, ?_, ?_, ?_⟩
  · rw [key tbl tbl2]
  · rw [key tbl tbl2]
  · rw [key tbl tbl2]; exact hne
  · rw [key tbl tbl2, key tbl' tbl2']

end GpuTemp

namespace GpuTemp

theorem get_eq_fallbackStep (avail : Bool) (vb : VendorBehavior)
    (tbl tbl2 : Except PyExn SensorTable)
    (h : (vendorPart avail vb).readings = [] ∨ (vendorPart avail vb).method ∈ fallbackMethods) :
    get_gpu_data_structured avail vb tbl tbl2 =
      fallbackStep
        ⟨(vendorPart avail vb).readings, (vendorPart avail vb).method,
          (vendorPart avail vb).error, none⟩ tbl tbl2 := by
  rcases h with h | h <;> simp [get_gpu_data_structured, h]

theorem get_eq_vendor (avail : Bool) (vb : VendorBehavior)
    (tbl tbl2 : Except PyExn SensorTable)
    (h : ¬((vendorPart avail vb).readings = [] ∨ (vendorPart avail vb).method ∈ fallbackMethods)) :
    get_gpu_data_structured avail vb tbl tbl2 =
      ⟨(vendorPart avail vb).readings, (vendorPart avail vb).method,
        (vendorPart avail vb).error, none⟩ := by
  push_neg at h
  obtain ⟨h1, h2⟩ := h
  have e1 : (vendorPart avail vb).readings.isEmpty = false := by
    cases hb : (vendorPart avail vb).readings.isEmpty
    · rfl
    · exact absurd (by simpa [List.isEmpty_iff] using hb) h1
  simp [get_gpu_data_structured, e1, h2]

theorem fallbackStep_error (d0 : GpuData) (e : PyExn) (tbl2 : Except PyExn SensorTable) :
    fallbackStep d0 (.error e) tbl2 =
      ⟨d0.gpu_temps, "error",
        some ("General error during GPU data collection: " ++ e.message),
        some (bestEffortKeys tbl2)⟩ := rfl

theorem fallbackStep_found (d0 : GpuData) (raw : SensorTable)
    (tbl2 : Except PyExn SensorTable)
    (h1 : genericCollect raw ≠ []) (h2 : d0.gpu_detection_method ≠ "pynvml") :
    fallbackStep d0 (.ok raw) tbl2 =
      { d0 with gpu_temps := d0.gpu_temps ++ genericCollect raw
                gpu_detection_method := "psutil" } := by
  have e1 : (genericCollect raw).isEmpty = false := by
    cases hb : (genericCollect raw).isEmpty
    · rfl
    · exact absurd (by simpa [List.isEmpty_iff] using hb) h1
  simp [fallbackStep, e1, h2]

theorem fallbackStep_notfound (d0 : GpuData) (raw : SensorTable)
    (tbl2 : Except PyExn SensorTable)
    (h1 : genericCollect raw = []) (h2 : d0.gpu_detection_method ≠ "pynvml") :
    fallbackStep d0 (.ok raw) tbl2 =
      ⟨d0.gpu_temps, "None", errUpdate d0.error, some (raw.map Prod.fst)⟩ := by
  simp [fallbackStep, h1, h2]

theorem fallbackStep_vendor_method (d0 : GpuData) (raw : SensorTable)
    (tbl2 : Except PyExn SensorTable) (h : d0.gpu_detection_method = "pynvml") :
    fallbackStep d0 (.ok raw) tbl2 =
      { d0 with gpu_temps := d0.gpu_temps ++ genericCollect raw } := by
  simp [fallbackStep, h]

end GpuTemp

namespace GpuTemp

/-- C3: the orchestrator never raises — it is a total function whose
result always carries one of the four final detection methods — and an
exception escaping to the top level (the sensor-table read itself
failing while the fallback is consulted) is converted into
`detectionMethod = "error"` with the exception message embedded in
the diagnostic and best-effort sensor keys (empty when even the
re-read fails). -/
theorem poll_never_raises (avail : Bool) (vb : VendorBehavior)
    (tbl tbl2 : Except PyExn SensorTable) :
    (get_gpu_data_structured avail vb tbl tbl2).gpu_detection_method ∈
      ["None", "pynvml", "psutil", "error"] ∧
    (∀ e, tbl = Except.error e →
      ((vendorPart avail vb).readings = [] ∨ (vendorPart avail vb).method ∈ fallbackMethods) →
      (get_gpu_data_structured avail vb tbl tbl2).gpu_detection_method = "error" ∧
      (get_gpu_data_structured avail vb tbl tbl2).error =
        some ("General error during GPU data collection: " ++ e.message) ∧
      (get_gpu_data_structured avail vb tbl tbl2).available_sensor_keys =
        some (bestEffortKeys tbl2)) ∧
    (∀ e2, bestEffortKeys (Except.error e2) = []) := by
  refine ⟨?_, ?_, fun _ => rfl⟩
  · by_cases hfb :
      (vendorPart avail vb).readings = [] ∨ (vendorPart avail vb).method ∈ fallbackMethods
    · rw [get_eq_fallbackStep avail vb tbl tbl2 hfb]
      cases tbl with
      | error e => rw [fallbackStep_error]; simp
      | ok raw =>
        by_cases hm : (vendorPart avail vb).method = "pynvml"
        · rw [fallbackStep_vendor_method _ _ _ hm]
          simp [hm]
        · by_cases hg : genericCollect raw = []
          · rw [fallbackStep_notfound _ _ _ hg hm]; simp
          · rw [fallbackStep_found _ _ _ hg hm]; simp
    · rw [get_eq_vendor avail vb tbl tbl2 hfb]
      push_neg at hfb
      rcases vendorPart_cases avail vb with ⟨hp, _⟩ | ⟨_, he⟩ | hf
      · simp [hp]
      · exact absurd he hfb.1
      · exact absurd hf hfb.2
  · rintro e rfl hfb
    rw [get_eq_fallbackStep avail vb _ tbl2 hfb, fallbackStep_error]
    exact ⟨rfl, rfl, rfl⟩

/-- Witness for C3: with the vendor library absent and a sensor table
whose read throws (and whose best-effort re-read throws as well), the
snapshot is the error snapshot with empty keys. -/
theorem poll_never_raises_witness :
    (get_gpu_data_structured false okBehavior (Except.error (PyExn.other "unreadable"))
        (Except.error (PyExn.other "again"))).gpu_detection_method = "error" ∧
    (get_gpu_data_structured false okBehavior (Except.error (PyExn.other "unreadable"))
        (Except.error (PyExn.other "again"))).error =
      some "General error during GPU data collection: unreadable" ∧
    (get_gpu_data_structured false okBehavior (Except.error (PyExn.other "unreadable"))
        (Except.error (PyExn.other "again"))).available_sensor_keys = some [] := by
  have h :=
    (poll_never_raises false okBehavior (Except.error (PyExn.other "unreadable"))
      (Except.error (PyExn.other "again"))).2.1 (PyExn.other "unreadable") rfl (by decide)
  exact ⟨h.1, h.2.1, h.2.2⟩

/-- C4 counterexample: a final snapshot with a nonempty `gpu_temps` and
`gpu_detection_method = "None"` — the vendor adapter contributed a
reading, yet the method is the claimed empty-only value, refuting the
claimed equivalence. -/
theorem readings_nonempty_method_none :
    (get_gpu_data_structured true retainedReadingBehavior
      (.ok []) (.ok [])).gpu_detection_method = "None" ∧
    (get_gpu_data_structured true retainedReadingBehavior
      (.ok []) (.ok [])).gpu_temps = [mkVendorReading "NVIDIA T4" 50] := by
  constructor <;> decide

/-- C4 (amended): provided the vendor path retains no readings when it
fails mid-way (its method is a fallback marker only with an empty
reading list), the `readings` of a final snapshot is empty exactly when its
detection method is `"None"` or `"error"`.  Without that proviso the
equivalence fails: partial vendor readings survive into `"None"` /
`"error"` snapshots. -/
theorem readings_empty_iff_method_none_or_error (avail : Bool) (vb : VendorBehavior)
    (tbl tbl2 : Except PyExn SensorTable)
    (H : (vendorPart avail vb).method ∈ fallbackMethods → (vendorPart avail vb).readings = []) :
    (get_gpu_data_structured avail vb tbl tbl2).gpu_temps = [] ↔
      (get_gpu_data_structured avail vb tbl tbl2).gpu_detection_method ∈ ["None", "error"] := by
  by_cases hfb :
    (vendorPart avail vb).readings = [] ∨ (vendorPart avail vb).method ∈ fallbackMethods
  · have hempty : (vendorPart avail vb).readings = [] := by
      rcases hfb with h | h
      exacts [h, H h]
    rw [get_eq_fallbackStep avail vb tbl tbl2 hfb]
    cases tbl with
    | error e => rw [fallbackStep_error]; simp [hempty]
    | ok raw =>
      by_cases hm : (vendorPart avail vb).method = "pynvml"
      · rcases vendorPart_cases avail vb with ⟨_, hne⟩ | ⟨hN, _⟩ | hf
        · exact absurd hempty hne
        · rw [hN] at hm; simp at hm
        · rw [hm] at hf; simp [fallbackMethods] at hf
      · by_cases hg : genericCollect raw = []
        · rw [fallbackStep_notfound _ _ _ hg hm]; simp [hempty]
        · rw [fallbackStep_found _ _ _ hg hm]; simp [hempty, hg]
  · rw [get_eq_vendor avail vb tbl tbl2 hfb]
    push_neg at hfb
    rcases vendorPart_cases avail vb with ⟨hp, hne⟩ | ⟨_, he⟩ | hf
    · simp [hp, hne]
    · exact absurd he hfb.1
    · exact absurd hf hfb.2

/-- Witness for C4: the vendor library is absent and the table holds no
qualifying entry, so readings are empty and the method is `"None"`. -/
theorem readings_empty_iff_witness :
    (get_gpu_data_structured false okBehavior (.ok []) (.ok [])).gpu_temps = [] ↔
      (get_gpu_data_structured false okBehavior
        (.ok []) (.ok [])).gpu_detection_method ∈ ["None", "error"] :=
  readings_empty_iff_method_none_or_error false okBehavior (.ok []) (.ok []) (by decide)

end GpuTemp

namespace GpuTemp

theorem collectEntries_qualifying (key : String) (counter : Nat) (s : SensorEntry)
    (rest : List SensorEntry) (h : is_gpu_sensor key s = true) :
    (collectEntries key counter (s :: rest)).1 =
      mkGenericReading key counter s :: (collectEntries key (counter + 1) rest).1 := by
  simp [collectEntries, h]

theorem collectEntries_skip (key : String) (counter : Nat) (s : SensorEntry)
    (rest : List SensorEntry) (h : is_gpu_sensor key s = false) :
    collectEntries key counter (s :: rest) = collectEntries key counter rest := by
  simp [collectEntries, h]

/-- C5: the classification heuristic.  An entry without a `current`
value never qualifies; `"amdgpu"` with a `current` always qualifies;
`"coretemp"` with label `"Package id 0"` never qualifies; `"temp1"`
with a label containing `"GPU core"` case-insensitively qualifies. -/
theorem classification_heuristic :
    (∀ (key : String) (s : SensorEntry), s.current = none → is_gpu_sensor key s = false) ∧
    (∀ (s : SensorEntry) (c : ℚ), s.current = some c → is_gpu_sensor "amdgpu" s = true) ∧
    (∀ (s : SensorEntry), s.label = "Package id 0" → is_gpu_sensor "coretemp" s = false) ∧
    (∀ (s : SensorEntry) (c : ℚ), s.current = some c →
      pyIn "gpu core" (pyLower s.label) = true → is_gpu_sensor "temp1" s = true) := by
  refine ⟨?_, ?_, ?_, ?_⟩
  · intro key s h
    simp [is_gpu_sensor, h]
  · intro s c h
    simp [is_gpu_sensor, h, psutil_gpu_sensor_keys]
  · intro s h
    cases hc : s.current with
    | none => simp [is_gpu_sensor, hc]
    | some c => simp [is_gpu_sensor, hc, h]; decide
  · intro s c h hlbl
    have hgpu : pyIn "gpu" (pyLower s.label) = true := by
      have h1 : "gpu core".toList <:+: (pyLower s.label).toList := (containsSub_iff _ _).mp hlbl
      have h2 : "gpu".toList <:+: "gpu core".toList := by decide
      exact (containsSub_iff _ _).mpr (h2.trans h1)
    simp [is_gpu_sensor, h, hgpu]; decide

/-- Witness for C5 at concrete sensor entries. -/
theorem classification_heuristic_witness :
    is_gpu_sensor "amdgpu" ⟨"edge", none, none, none⟩ = false ∧
    is_gpu_sensor "amdgpu" ⟨"edge", some 50, none, none⟩ = true ∧
    is_gpu_sensor "coretemp" ⟨"Package id 0", some 50, none, none⟩ = false ∧
    is_gpu_sensor "temp1" ⟨"GPU core", some 50, none, none⟩ = true :=
  ⟨classification_heuristic.1 "amdgpu" _ rfl,
   classification_heuristic.2.1 _ 50 rfl,
   classification_heuristic.2.2.1 _ rfl,
   classification_heuristic.2.2.2 _ 50 rfl (by decide)⟩

/-- C6: threshold defaults are substituted per field — `high` is the
value of the entry when present and 85.0 when absent, `critical` likewise
with 95.0, and `current` is the current value of the entry. -/
theorem generic_default_thresholds (key : String) (counter : Nat) (s : SensorEntry) :
    (∀ h, s.high = some h → (mkGenericReading key counter s).high = h) ∧
    (s.high = none → (mkGenericReading key counter s).high = 85) ∧
    (∀ c, s.critical = some c → (mkGenericReading key counter s).critical = c) ∧
    (s.critical = none → (mkGenericReading key counter s).critical = 95) ∧
    (∀ v, s.current = some v → (mkGenericReading key counter s).current = v) := by
  refine ⟨fun h hh => ?_, fun hh => ?_, fun c hc => ?_, fun hc => ?_, fun v hv => ?_⟩ <;>
    simp [mkGenericReading, *]

/-- Witness for C6: high 72.5 stays 72.5; absent high becomes 85.0;
critical likewise; current is passed through. -/
theorem generic_default_thresholds_witness :
    (mkGenericReading "amdgpu" 1 ⟨"edge", some 60, some 72.5, none⟩).high = 72.5 ∧
    (mkGenericReading "amdgpu" 1 ⟨"edge", some 60, none, none⟩).high = 85 ∧
    (mkGenericReading "amdgpu" 1 ⟨"edge", some 60, none, some 91⟩).critical = 91 ∧
    (mkGenericReading "amdgpu" 1 ⟨"edge", some 60, none, none⟩).critical = 95 ∧
    (mkGenericReading "amdgpu" 1 ⟨"edge", some 60, none, none⟩).current = 60 :=
  ⟨(generic_default_thresholds "amdgpu" 1 _).1 72.5 rfl,
   (generic_default_thresholds "amdgpu" 1 _).2.1 rfl,
   (generic_default_thresholds "amdgpu" 1 _).2.2.1 91 rfl,
   (generic_default_thresholds "amdgpu" 1 _).2.2.2.1 rfl,
   (generic_default_thresholds "amdgpu" 1 _).2.2.2.2 60 rfl⟩

/-- C10: a non-empty, all-whitespace label is stripped to the empty
string; the synthesized ordinal label appears only for an empty
label. -/
theorem whitespace_label_strips_to_empty (key : String) (counter : Nat) (s : SensorEntry) :
    (s.label ≠ "" → (∀ ch ∈ s.label.toList, ch.isWhitespace) →
      (mkGenericReading key counter s).label = "") ∧
    (s.label = "" → (mkGenericReading key counter s).label = "GPU " ++ toString counter) := by
  constructor
  · intro h hws
    simp [mkGenericReading, h]
    exact pyStrip_of_all_ws _ hws
  · intro h
    simp [mkGenericReading, h]

/-- Witness for C10: a three-space label yields `""`; an empty label
yields the synthesized ordinal label. -/
theorem whitespace_label_strips_to_empty_witness :
    (mkGenericReading "amdgpu" 2 ⟨"   ", some 50, none, none⟩).label = "" ∧
    (mkGenericReading "amdgpu" 2 ⟨"", some 50, none, none⟩).label = "GPU 2" :=
  ⟨(whitespace_label_strips_to_empty "amdgpu" 2 _).1 (by decide) (by decide),
   (whitespace_label_strips_to_empty "amdgpu" 2 _).2 rfl⟩

end GpuTemp

namespace GpuTemp

/-- C7 counterexample: for the label `"GPU GPU 1"` at index 0 the
program replaces every occurrence of `"GPU "` (Python `str.replace`),
producing `"GG1"`, not the `"GGPU 1"` that prefix-only replacement
would give. -/
theorem short_label_replaces_every_occurrence :
    shortLabel "GPU GPU 1" 0 = "GG1" ∧ shortLabel "GPU GPU 1" 0 ≠ "GGPU 1" := by
  constructor <;> decide

/-- C7 (amended): the short label is `"NV{i+1}"` when the label
contains `nvidia` case-insensitively, else `"AMD{i+1}"` when it
contains `amd` or `radeon`, else — for a label starting with
`"GPU "` — the label with every occurrence of `"GPU "` replaced by
`"G"`, else `"G{i+1}"`; with the three examples of the claim. -/
theorem short_label_derivation :
    (∀ (l : String) (i : Nat), pyIn "nvidia" (pyLower l) = true →
      shortLabel l i = "NV" ++ toString (i + 1)) ∧
    (∀ (l : String) (i : Nat), pyIn "nvidia" (pyLower l) = false →
      (pyIn "amd" (pyLower l) || pyIn "radeon" (pyLower l)) = true →
      shortLabel l i = "AMD" ++ toString (i + 1)) ∧
    (∀ (l : String) (i : Nat), pyIn "nvidia" (pyLower l) = false →
      pyIn "amd" (pyLower l) = false → pyIn "radeon" (pyLower l) = false →
      pyStartsWith l "GPU " = true → shortLabel l i = pyReplace l "GPU " "G") ∧
    (∀ (l : String) (i : Nat), pyIn "nvidia" (pyLower l) = false →
      pyIn "amd" (pyLower l) = false → pyIn "radeon" (pyLower l) = false →
      pyStartsWith l "GPU " = false → shortLabel l i = "G" ++ toString (i + 1)) ∧
    shortLabel "NVIDIA GeForce RTX 3080" 0 = "NV1" ∧
    shortLabel "GPU 2" 1 = "G2" ∧
    shortLabel "Radeon RX 6800" 2 = "AMD3" := by
  refine ⟨?_, ?_, ?_, ?_, by decide, by decide, by decide⟩
  · intro l i h
    simp [shortLabel, h]
  · intro l i h1 h2
    simp [shortLabel, h1, h2]
  · intro l i h1 h2 h3 h4
    simp [shortLabel, h1, h2, h3, h4]
  · intro l i h1 h2 h3 h4
    simp [shortLabel, h1, h2, h3, h4]

/-- Witness for C7, applying each branch of the derivation at the
concrete labels of the claim. -/
theorem short_label_derivation_witness :
    shortLabel "NVIDIA GeForce RTX 3080" 0 = "NV1" ∧
    shortLabel "Radeon RX 6800" 2 = "AMD3" ∧
    shortLabel "GPU 2" 1 = pyReplace "GPU 2" "GPU " "G" ∧
    shortLabel "Titan X" 3 = "G4" :=
  ⟨short_label_derivation.1 "NVIDIA GeForce RTX 3080" 0 (by decide),
   short_label_derivation.2.1 "Radeon RX 6800" 2 (by decide) (by decide),
   short_label_derivation.2.2.1 "GPU 2" 1 (by decide) (by decide) (by decide) (by decide),
   short_label_derivation.2.2.2.1 "Titan X" 3 (by decide) (by decide) (by decide) (by decide)⟩

/-- C8 counterexample: an error-bearing snapshot with zero readings in
`--short` mode prints the diagnostic to standard error and exits 1 —
not the unconditional exit 0 the claim also asserts for `--short`. -/
theorem short_error_snapshot_exits_one :
    oneShot .short ⟨[], "error", some "boom", some []⟩ =
      (.errorExit "boom" (some []), 1) ∧ (1 : Nat) ≠ 0 := by
  constructor <;> decide

/-- C8 (amended): a one-shot invocation exits 1 exactly when the
snapshot carries an error and zero readings (then the diagnostic and
any sensor keys go to standard error), and exits 0 in every other
case — `--short` included, so its unconditional "exit 0" holds only
outside the error-and-empty state. -/
theorem oneshot_exit_policy (mode : Mode) (d : GpuData) :
    ((oneShot mode d).2 = 1 ↔ d.error.isSome = true ∧ d.gpu_temps = []) ∧
    ((oneShot mode d).2 = 1 ∨ (oneShot mode d).2 = 0) ∧
    (d.error.isSome = true → d.gpu_temps = [] →
      oneShot mode d = (.errorExit (d.error.getD "") d.available_sensor_keys, 1)) := by
  rcases hE : d.error with _ | msg <;>
    rcases hT : d.gpu_temps with _ | ⟨r, rest⟩ <;>
      cases mode <;>
        simp [oneShot, hE, hT]

/-- Witness for C8 at a concrete error-free snapshot and mode. -/
theorem oneshot_exit_policy_witness :
    ((oneShot Mode.short ⟨[], "None", some "no data", some ["coretemp"]⟩).2 = 1 ↔
      (some "no data" : Option String).isSome = true ∧ ([] : List Reading) = []) ∧
    oneShot Mode.short ⟨[], "None", some "no data", some ["coretemp"]⟩ =
      (.errorExit "no data" (some ["coretemp"]), 1) := by
  have h := oneshot_exit_policy Mode.short ⟨[], "None", some "no data", some ["coretemp"]⟩
  exact ⟨h.1, h.2.2 rfl rfl⟩

/-- C9: when the snapshot carries an error together with at least one
reading, the error exit is not taken: `--json` prints the full
snapshot (embedded error included) and exits 0, `--short` prints the
per-reading digest and exits 0. -/
theorem error_with_readings_exits_zero (mode : Mode) (d : GpuData) (m : String)
    (hE : d.error = some m) (hT : d.gpu_temps ≠ []) :
    (oneShot mode d).2 = 0 ∧
    oneShot .json d = (.jsonDoc d, 0) ∧
    oneShot .short d = (.shortDigest (shortParts d.gpu_temps), 0) := by
  rcases hl : d.gpu_temps with _ | ⟨r, rest⟩
  · exact absurd hl hT
  · cases mode <;> simp [oneShot, hE, hl]

/-- Witness for C9: a snapshot with a diagnostic and one reading is
printed normally with exit code 0 in both one-shot modes. -/
theorem error_with_readings_exits_zero_witness :
    (oneShot Mode.json
      ⟨[mkVendorReading "NVIDIA T4" 50], "psutil", some "pynvml error: x", none⟩).2 = 0 ∧
    (oneShot Mode.short
      ⟨[mkVendorReading "NVIDIA T4" 50], "psutil", some "pynvml error: x", none⟩).2 = 0 := by
  have hj := error_with_readings_exits_zero Mode.json
    ⟨[mkVendorReading "NVIDIA T4" 50], "psutil", some "pynvml error: x", none⟩
    "pynvml error: x" rfl (by decide)
  have hs := error_with_readings_exits_zero Mode.short
    ⟨[mkVendorReading "NVIDIA T4" 50], "psutil", some "pynvml error: x", none⟩
    "pynvml error: x" rfl (by decide)
  exact ⟨hj.1, hs.1⟩

end GpuTemp

namespace GpuTemp

/-- Witness for C1: one fully successful vendor device wins over a
sensor table that also contains a qualifying amdgpu entry. -/
theorem vendor_success_excludes_generic_witness :
    (get_gpu_data_structured true oneDeviceBehavior
      (.ok [("amdgpu", [⟨"edge", some 50, none, none⟩])])
      (.ok [])).gpu_detection_method = "pynvml" ∧
    (get_gpu_data_structured true oneDeviceBehavior
      (.ok [("amdgpu", [⟨"edge", some 50, none, none⟩])])
      (.ok [])).gpu_temps = (readDevicesFrom oneDeviceBehavior 0 1).1 := by
  have h := vendor_success_excludes_generic oneDeviceBehavior 1
    ⟨rfl, rfl, fun j hj => ⟨("NVIDIA T4", 50), rfl⟩, rfl⟩ (by decide)
    (.ok [("amdgpu", [⟨"edge", some 50, none, none⟩])]) (.ok []) (.ok []) (.ok [])
  exact ⟨h.1, h.2.1⟩

/-- Witness for C2 (amended), at a stub whose every call succeeds. -/
theorem shutdown_iff_no_earlier_failure_witness :
    (runVendor okBehavior).shutdownCalled = true :=
  (shutdown_iff_no_earlier_failure okBehavior).mpr ⟨rfl, 0, rfl, rfl⟩

end GpuTemp
